import Mathlib

/-!
Verification of the query-builder / generic-repository core of
`rust_api_template`, shallowly embedded in Lean 4.

Source files embedded:
* `src/core/base/query_builder/query_models.rs` — operators and clause IR,
* `src/core/base/query_builder/query_builder.rs` — `QueryBuilderUtil`,
  `GroupBuilder`, where-clause construction and SQL rendering,
* `src/core/base/query_builder/generic_query_builder.rs` — `DbType` and
  placeholder generation,
* `src/core/base/query_builder/parameterizedQuery.rs` — `ParameterizedQuery`,
* `src/core/base/generic_repository/repository_trait.rs` — the repository
  facade operations,
* `src/core/base/generic_repository/repository_utils.rs` — `execute_transaction`.

Scalar values (`serde_json::Value`) are modelled by the inductive `Val`
covering the scalar shapes the repository binds.  Machine integers (`u32`)
are modelled as `Nat` with explicit `% 2^32` where Rust wrapping arithmetic
matters.  Database round-trips are modelled by passing the driver outcome
(rows affected, count, fetched rows) as an explicit argument, and the SQL
statements a facade operation would issue are returned as data so that
"no SQL is executed" claims are statements about a returned list.
-/

/-- Model of `serde_json::Value` restricted to the scalar shapes the
repository actually binds (null, booleans, integers, strings). -/
inductive Val where
  | null : Val
  | bool (b : Bool) : Val
  | int (n : Int) : Val
  | str (s : String) : Val
deriving DecidableEq, Repr

/-- Model of the database-driver error carried by `ApiError::Database`. -/
structure DbErr where
  message : String
deriving DecidableEq, Repr

/-- `ApiError` from `src/core/errors/errors.rs` (the variants reachable from
the repository core). -/
inductive ApiError where
  | authentication (m : String) : ApiError
  | authorization (m : String) : ApiError
  | badRequest (m : String) : ApiError
  | notFound (m : String) : ApiError
  | conflict (m : String) : ApiError
  | internalServer (m : String) : ApiError
  | database (e : DbErr) : ApiError
  | serialization (m : String) : ApiError
  | invalidColumn (c : String) : ApiError
  | invalidQuery (m : String) : ApiError
deriving DecidableEq, Repr

/-- `ComparisonOperator` from `query_models.rs`. -/
inductive ComparisonOperator where
  | equal | notEqual | greaterThan | greaterThanOrEqual
  | lessThan | lessThanOrEqual | like | ilike
  | inList | notInList | isNull | isNotNull | between
deriving DecidableEq, Repr

/-- `ComparisonOperator::to_sql`. -/
def ComparisonOperator.toSql : ComparisonOperator → String
  | .equal => "="
  | .notEqual => "!="
  | .greaterThan => ">"
  | .greaterThanOrEqual => ">="
  | .lessThan => "<"
  | .lessThanOrEqual => "<="
  | .like => "LIKE"
  | .ilike => "ILIKE"
  | .inList => "IN"
  | .notInList => "NOT IN"
  | .isNull => "IS NULL"
  | .isNotNull => "IS NOT NULL"
  | .between => "BETWEEN"

/-- `LogicalOperator` from `query_models.rs`. -/
inductive LogicalOperator where
  | and | or
deriving DecidableEq, Repr

/-- `LogicalOperator::to_sql`. -/
def LogicalOperator.toSql : LogicalOperator → String
  | .and => "AND"
  | .or => "OR"

/-- `OrderDirection` from `query_models.rs`. -/
inductive OrderDirection where
  | asc | desc
deriving DecidableEq, Repr

/-- `OrderDirection::to_sql`. -/
def OrderDirection.toSql : OrderDirection → String
  | .asc => "ASC"
  | .desc => "DESC"

/-- `JoinType` from `query_models.rs`. -/
inductive JoinType where
  | inner | left | right | full
deriving DecidableEq, Repr

/-- `JoinType::to_sql`. -/
def JoinType.toSql : JoinType → String
  | .inner => "INNER JOIN"
  | .left => "LEFT JOIN"
  | .right => "RIGHT JOIN"
  | .full => "FULL OUTER JOIN"

/-- `WhereCondition` from `query_models.rs`. -/
structure WhereCondition where
  column : String
  operator : ComparisonOperator
  value : Option Val
  values : Option (List Val)
deriving DecidableEq, Repr

/-- `WhereClause` from `query_models.rs`: either a single condition or a
nested group.  A `WhereGroup` holds its clause list (each clause paired with
the optional logical operator stored by `and()`/`or()`) together with the
group's own operator. -/
inductive WhereClause where
  | condition (c : WhereCondition) : WhereClause
  | group (clauses : List (WhereClause × Option LogicalOperator))
      (op : LogicalOperator) : WhereClause

/-- `OrderBy` from `query_models.rs`. -/
structure OrderBy where
  column : String
  direction : OrderDirection
deriving DecidableEq, Repr

/-- `JoinClause` from `query_models.rs`. -/
structure JoinClause where
  joinType : JoinType
  table : String
  onCondition : String
deriving DecidableEq, Repr

/-- `DbType` from `generic_query_builder.rs`. -/
inductive DbType where
  | postgres | mysql | sqlite
deriving DecidableEq, Repr

/-- `DbType::placeholder`: `$n` for Postgres, `?` for MySQL/SQLite. -/
def DbType.placeholder : DbType → Nat → String
  | .postgres, index => "$" ++ toString index
  | .mysql, _ => "?"
  | .sqlite, _ => "?"

/-- Modelled from the spec: the `Entry` entity contract
(`src/core/base/generic_repository/entry_trait.rs` is not present in the
sources; only its implementors and callers are).  Per spec §3 an entry
declares a table name, the ordered list of all persisted columns, and the
ordered list of insertable columns. -/
structure Entry where
  tableName : String
  columns : List String
  insertableColumns : List String
deriving DecidableEq, Repr

/-- Modelled from the spec: `Entry::columns_to_string` joins `columns()`
with a comma separator, as used by `find_all`
(`T::columns().join(", ")` in `repository_trait.rs`). -/
def Entry.columnsToString (e : Entry) : String :=
  String.intercalate ", " e.columns

/-- The `User` entity from `src/db/models/user.rs` (its `Entry`
implementation data). -/
def userEntry : Entry :=
  { tableName := "users"
    columns := ["id", "username", "email", "password_hash",
                "created_at", "updated_at"]
    insertableColumns := ["username", "email", "password_hash",
                          "created_at", "updated_at"] }

/-! ## SQL rendering state

`sqlx::QueryBuilder` accumulates SQL text with `push` and allocates one
placeholder per `push_bind`, recording the bound value.  The render state
also carries the dialect so the same rendering pass covers both the
Postgres `$n` style and the `?` style of `DbType::placeholder`. -/

/-- Rendering state: accumulated SQL text, values bound so far (in
allocation order), the number of placeholders allocated, and the dialect. -/
structure RenderSt where
  sql : String
  binds : List Val
  paramCount : Nat
  dbType : DbType
deriving DecidableEq, Repr

/-- A fresh render state with the given initial SQL text. -/
def RenderSt.new (db : DbType) (s : String) : RenderSt :=
  { sql := s, binds := [], paramCount := 0, dbType := db }

/-- `QueryBuilder::push`: append raw SQL text. -/
def RenderSt.push (st : RenderSt) (s : String) : RenderSt :=
  { st with sql := st.sql ++ s }

/-- `QueryBuilder::push_bind` (as used by `QueryBuilderUtil::bind_value`):
allocate the next placeholder in the SQL text and record the bound value. -/
def RenderSt.pushBind (st : RenderSt) (v : Val) : RenderSt :=
  { st with
      sql := st.sql ++ st.dbType.placeholder (st.paramCount + 1)
      binds := st.binds ++ [v]
      paramCount := st.paramCount + 1 }

/-- `QueryBuilderUtil::build_single_condition`
(`query_builder.rs`, lines 616–658). -/
def buildSingleCondition (c : WhereCondition) (st : RenderSt) : RenderSt :=
  let st := (st.push c.column).push " " |>.push c.operator.toSql
  match c.operator with
  | .isNull | .isNotNull => st
  | .inList | .notInList =>
    match c.values with
    | some vs =>
      let st := st.push " ("
      let st := (vs.foldl
        (fun (acc : RenderSt × Nat) v =>
          let st1 := if acc.2 > 0 then acc.1.push ", " else acc.1
          (st1.pushBind v, acc.2 + 1))
        (st, (0 : Nat))).1
      st.push ")"
    | none => st
  | .between =>
    match c.values with
    | some vs =>
      match vs with
      | [lo, hi] => (((st.push " ").pushBind lo).push " AND ").pushBind hi
      | _ => st
    | none => st
  | _ =>
    match c.value with
    | some v => (st.push " ").pushBind v
    | none => st

/-- `QueryBuilderUtil::build_where_clauses` (`query_builder.rs`, lines
586–614): renders a clause list; for every clause after the first, the
connective written before clause `i` is the `Option LogicalOperator` stored
with clause `i` itself, defaulting to `AND` when it is `none`; a group
renders parenthesized with its inner clauses rendered recursively. -/
def buildWhereClauses
    (clauses : List (WhereClause × Option LogicalOperator))
    (first : Bool) (st : RenderSt) : RenderSt :=
  match clauses with
  | [] => st
  | (clause, logicalOp) :: rest =>
    let st :=
      if first then st
      else
        let opTxt := match logicalOp with
          | some op => op.toSql
          | none => "AND"
        ((st.push " ").push opTxt).push " "
    let st :=
      match clause with
      | .condition c => buildSingleCondition c st
      | .group gclauses _gop =>
        (buildWhereClauses gclauses true (st.push "(")).push ")"
    buildWhereClauses rest false st

/-- `QueryBuilderUtil::build_where_conditions`. -/
def buildWhereConditions
    (clauses : List (WhereClause × Option LogicalOperator))
    (st : RenderSt) : RenderSt :=
  buildWhereClauses clauses true st

/-! ## `QueryBuilderUtil` (query_builder.rs) -/

/-- The builder state of `QueryBuilderUtil<T>`.  The entity's static data
(`T::table_name()`, `T::columns()`) is carried as the `ent` field; the
`update_data`/`insert_data` hash maps are modelled as association lists. -/
structure QueryBuilderUtil where
  ent : Entry
  whereClauses : List (WhereClause × Option LogicalOperator)
  orderBy : List OrderBy
  joins : List JoinClause
  limit : Option Nat
  offset : Option Nat
  groupBy : List String
  having : List WhereCondition
  distinct : Bool
  selectColumns : Option (List String)
  updateData : List (String × Val)
  insertData : List (String × Val)

/-- `QueryBuilderUtil::new`. -/
def QueryBuilderUtil.new (ent : Entry) : QueryBuilderUtil :=
  { ent := ent, whereClauses := [], orderBy := [], joins := []
    limit := none, offset := none, groupBy := [], having := []
    distinct := false, selectColumns := none
    updateData := [], insertData := [] }

/-- `QueryBuilderUtil::validate_column`: a column must be contained in
`T::columns()`, otherwise `ApiError::InvalidColumn`. -/
def QueryBuilderUtil.validateColumn (b : QueryBuilderUtil) (column : String) :
    Except ApiError Unit :=
  if b.ent.columns.contains column then .ok ()
  else .error (.invalidColumn column)

/-- Push a where clause (shared tail of all the `where_*` methods). -/
def QueryBuilderUtil.pushClause (b : QueryBuilderUtil) (c : WhereCondition) :
    QueryBuilderUtil :=
  { b with whereClauses := b.whereClauses ++ [(.condition c, none)] }

/-- `QueryBuilderUtil::where_eq`. -/
def QueryBuilderUtil.whereEq (b : QueryBuilderUtil) (column : String) (v : Val) :
    Except ApiError QueryBuilderUtil := do
  b.validateColumn column
  .ok (b.pushClause ⟨column, .equal, some v, none⟩)

/-- `QueryBuilderUtil::where_ne`. -/
def QueryBuilderUtil.whereNe (b : QueryBuilderUtil) (column : String) (v : Val) :
    Except ApiError QueryBuilderUtil := do
  b.validateColumn column
  .ok (b.pushClause ⟨column, .notEqual, some v, none⟩)

/-- `QueryBuilderUtil::where_gt`. -/
def QueryBuilderUtil.whereGt (b : QueryBuilderUtil) (column : String) (v : Val) :
    Except ApiError QueryBuilderUtil := do
  b.validateColumn column
  .ok (b.pushClause ⟨column, .greaterThan, some v, none⟩)

/-- `QueryBuilderUtil::where_gte`. -/
def QueryBuilderUtil.whereGte (b : QueryBuilderUtil) (column : String) (v : Val) :
    Except ApiError QueryBuilderUtil := do
  b.validateColumn column
  .ok (b.pushClause ⟨column, .greaterThanOrEqual, some v, none⟩)

/-- `QueryBuilderUtil::where_lt`. -/
def QueryBuilderUtil.whereLt (b : QueryBuilderUtil) (column : String) (v : Val) :
    Except ApiError QueryBuilderUtil := do
  b.validateColumn column
  .ok (b.pushClause ⟨column, .lessThan, some v, none⟩)

/-- `QueryBuilderUtil::where_lte`. -/
def QueryBuilderUtil.whereLte (b : QueryBuilderUtil) (column : String) (v : Val) :
    Except ApiError QueryBuilderUtil := do
  b.validateColumn column
  .ok (b.pushClause ⟨column, .lessThanOrEqual, some v, none⟩)

/-- `QueryBuilderUtil::where_like`. -/
def QueryBuilderUtil.whereLike (b : QueryBuilderUtil) (column : String)
    (pat : Val) : Except ApiError QueryBuilderUtil := do
  b.validateColumn column
  .ok (b.pushClause ⟨column, .like, some pat, none⟩)

/-- `QueryBuilderUtil::where_ilike`. -/
def QueryBuilderUtil.whereIlike (b : QueryBuilderUtil) (column : String)
    (pat : Val) : Except ApiError QueryBuilderUtil := do
  b.validateColumn column
  .ok (b.pushClause ⟨column, .ilike, some pat, none⟩)

/-- `QueryBuilderUtil::where_in`. -/
def QueryBuilderUtil.whereIn (b : QueryBuilderUtil) (column : String)
    (vs : List Val) : Except ApiError QueryBuilderUtil := do
  b.validateColumn column
  .ok (b.pushClause ⟨column, .inList, none, some vs⟩)

/-- `QueryBuilderUtil::where_not_in`. -/
def QueryBuilderUtil.whereNotIn (b : QueryBuilderUtil) (column : String)
    (vs : List Val) : Except ApiError QueryBuilderUtil := do
  b.validateColumn column
  .ok (b.pushClause ⟨column, .notInList, none, some vs⟩)

/-- `QueryBuilderUtil::where_null`. -/
def QueryBuilderUtil.whereNull (b : QueryBuilderUtil) (column : String) :
    Except ApiError QueryBuilderUtil := do
  b.validateColumn column
  .ok (b.pushClause ⟨column, .isNull, none, none⟩)

/-- `QueryBuilderUtil::where_not_null`. -/
def QueryBuilderUtil.whereNotNull (b : QueryBuilderUtil) (column : String) :
    Except ApiError QueryBuilderUtil := do
  b.validateColumn column
  .ok (b.pushClause ⟨column, .isNotNull, none, none⟩)

/-- `QueryBuilderUtil::where_between`. -/
def QueryBuilderUtil.whereBetween (b : QueryBuilderUtil) (column : String)
    (lo hi : Val) : Except ApiError QueryBuilderUtil := do
  b.validateColumn column
  .ok (b.pushClause ⟨column, .between, none, some [lo, hi]⟩)

/-- Set the logical-operator slot of the last pushed clause (the shared
body of `and()`/`or()`): a no-op on an empty clause list. -/
def setLastOp (op : LogicalOperator) :
    List (WhereClause × Option LogicalOperator) →
    List (WhereClause × Option LogicalOperator)
  | [] => []
  | [(c, _)] => [(c, some op)]
  | x :: rest => x :: setLastOp op rest

/-- `QueryBuilderUtil::and`. -/
def QueryBuilderUtil.andOp (b : QueryBuilderUtil) : QueryBuilderUtil :=
  { b with whereClauses := setLastOp .and b.whereClauses }

/-- `QueryBuilderUtil::or`. -/
def QueryBuilderUtil.orOp (b : QueryBuilderUtil) : QueryBuilderUtil :=
  { b with whereClauses := setLastOp .or b.whereClauses }

/-- `QueryBuilderUtil::order_by`. -/
def QueryBuilderUtil.orderByCol (b : QueryBuilderUtil) (column : String)
    (dir : OrderDirection) : Except ApiError QueryBuilderUtil := do
  b.validateColumn column
  .ok { b with orderBy := b.orderBy ++ [⟨column, dir⟩] }

/-- `QueryBuilderUtil::limit`. -/
def QueryBuilderUtil.setLimit (b : QueryBuilderUtil) (n : Nat) :
    QueryBuilderUtil :=
  { b with limit := some n }

/-- `QueryBuilderUtil::offset`. -/
def QueryBuilderUtil.setOffset (b : QueryBuilderUtil) (n : Nat) :
    QueryBuilderUtil :=
  { b with offset := some n }

/-- `QueryBuilderUtil::paginate` (`query_builder.rs`, lines 333–338):
`offset = page.saturating_sub(1) * page_size` (`Nat` subtraction is exactly
`u32::saturating_sub` for arguments below `2^32`; the product is reduced
`% 2^32` as `u32` multiplication would wrap). -/
def QueryBuilderUtil.paginate (b : QueryBuilderUtil) (page pageSize : Nat) :
    QueryBuilderUtil :=
  { b with limit := some pageSize, offset := some ((page - 1) * pageSize % 2 ^ 32) }

/-- `QueryBuilderUtil::group_by`. -/
def QueryBuilderUtil.groupByCol (b : QueryBuilderUtil) (column : String) :
    Except ApiError QueryBuilderUtil := do
  b.validateColumn column
  .ok { b with groupBy := b.groupBy ++ [column] }

/-- `QueryBuilderUtil::distinct`. -/
def QueryBuilderUtil.setDistinct (b : QueryBuilderUtil) : QueryBuilderUtil :=
  { b with distinct := true }

/-- `QueryBuilderUtil::select`: validates every column, then replaces the
projection list. -/
def QueryBuilderUtil.select (b : QueryBuilderUtil) (cols : List String) :
    Except ApiError QueryBuilderUtil := do
  let _ ← cols.foldlM (fun _ c => b.validateColumn c) ()
  .ok { b with selectColumns := some cols }

/-- `QueryBuilderUtil::set` (UPDATE assignment). -/
def QueryBuilderUtil.set (b : QueryBuilderUtil) (column : String) (v : Val) :
    Except ApiError QueryBuilderUtil := do
  b.validateColumn column
  .ok { b with updateData := b.updateData ++ [(column, v)] }

/-- `QueryBuilderUtil::value` (INSERT value). -/
def QueryBuilderUtil.value (b : QueryBuilderUtil) (column : String) (v : Val) :
    Except ApiError QueryBuilderUtil := do
  b.validateColumn column
  .ok { b with insertData := b.insertData ++ [(column, v)] }

/-! ## `GroupBuilder` (query_builder.rs, lines 824–977) -/

/-- The builder state of `GroupBuilder<T>`. -/
structure GroupBuilder where
  ent : Entry
  clauses : List (WhereClause × Option LogicalOperator)

/-- `GroupBuilder::new`. -/
def GroupBuilder.new (ent : Entry) : GroupBuilder :=
  { ent := ent, clauses := [] }

/-- `GroupBuilder::validate_column`. -/
def GroupBuilder.validateColumn (g : GroupBuilder) (column : String) :
    Except ApiError Unit :=
  if g.ent.columns.contains column then .ok ()
  else .error (.invalidColumn column)

/-- Push a condition clause into the group. -/
def GroupBuilder.pushClause (g : GroupBuilder) (c : WhereCondition) :
    GroupBuilder :=
  { g with clauses := g.clauses ++ [(.condition c, none)] }

/-- `GroupBuilder::where_eq`. -/
def GroupBuilder.whereEq (g : GroupBuilder) (column : String) (v : Val) :
    Except ApiError GroupBuilder := do
  g.validateColumn column
  .ok (g.pushClause ⟨column, .equal, some v, none⟩)

/-- `GroupBuilder::and`. -/
def GroupBuilder.andOp (g : GroupBuilder) : GroupBuilder :=
  { g with clauses := setLastOp .and g.clauses }

/-- `GroupBuilder::or`. -/
def GroupBuilder.orOp (g : GroupBuilder) : GroupBuilder :=
  { g with clauses := setLastOp .or g.clauses }

/-- `QueryBuilderUtil::where_group_and` (`query_builder.rs`, lines 263–280):
runs the closure on a fresh `GroupBuilder`; a non-empty group is pushed as a
`WhereClause::Group` with operator `And` and no connective slot. -/
def QueryBuilderUtil.whereGroupAnd (b : QueryBuilderUtil)
    (f : GroupBuilder → Except ApiError GroupBuilder) :
    Except ApiError QueryBuilderUtil := do
  let g ← f (GroupBuilder.new b.ent)
  if g.clauses.isEmpty then .ok b
  else .ok { b with
    whereClauses := b.whereClauses ++ [(.group g.clauses .and, none)] }

/-- `QueryBuilderUtil::where_group_or` (`query_builder.rs`, lines 285–302). -/
def QueryBuilderUtil.whereGroupOr (b : QueryBuilderUtil)
    (f : GroupBuilder → Except ApiError GroupBuilder) :
    Except ApiError QueryBuilderUtil := do
  let g ← f (GroupBuilder.new b.ent)
  if g.clauses.isEmpty then .ok b
  else .ok { b with
    whereClauses := b.whereClauses ++ [(.group g.clauses .or, none)] }

/-! ## Query rendering (query_builder.rs) -/

/-- `QueryBuilderUtil::build_select_query` (`query_builder.rs`,
lines 437–501). -/
def QueryBuilderUtil.buildSelectQuery (b : QueryBuilderUtil) (db : DbType) :
    RenderSt :=
  let st := RenderSt.new db "SELECT "
  let st := if b.distinct then st.push "DISTINCT " else st
  let columns := match b.selectColumns with
    | some cols => cols
    | none => b.ent.columns
  let st := st.push (String.intercalate ", " columns)
  let st := (st.push " FROM ").push b.ent.tableName
  let st := b.joins.foldl
    (fun st j =>
      ((((st.push " ").push j.joinType.toSql).push " ").push j.table
        |>.push " ON ").push j.onCondition)
    st
  let st :=
    if b.whereClauses.isEmpty then st
    else buildWhereConditions b.whereClauses (st.push " WHERE ")
  let st :=
    if b.groupBy.isEmpty then st
    else (st.push " GROUP BY ").push (String.intercalate ", " b.groupBy)
  let st :=
    if b.orderBy.isEmpty then st
    else
      let st := st.push " ORDER BY "
      (b.orderBy.foldl
        (fun (acc : RenderSt × Nat) o =>
          let st1 := if acc.2 > 0 then acc.1.push ", " else acc.1
          (((st1.push o.column).push " ").push o.direction.toSql, acc.2 + 1))
        (st, (0 : Nat))).1
  let st := match b.limit with
    | some n => (st.push " LIMIT ").push (toString n)
    | none => st
  match b.offset with
  | some n => (st.push " OFFSET ").push (toString n)
  | none => st

/-- The query construction part of `QueryBuilderUtil::count`
(`query_builder.rs`, lines 697–724): `SELECT COUNT(*) FROM <table>` plus
joins and WHERE conditions — `limit`/`offset`/`order_by`/`group_by` are not
consulted. -/
def QueryBuilderUtil.countQuery (b : QueryBuilderUtil) (db : DbType) :
    RenderSt :=
  let st := RenderSt.new db "SELECT COUNT(*) FROM "
  let st := st.push b.ent.tableName
  let st := b.joins.foldl
    (fun st j =>
      ((((st.push " ").push j.joinType.toSql).push " ").push j.table
        |>.push " ON ").push j.onCondition)
    st
  if b.whereClauses.isEmpty then st
  else buildWhereConditions b.whereClauses (st.push " WHERE ")

/-! ## Repository facade (repository_trait.rs)

The facade methods build their SQL through the generic
`QueryBuilder`/`ParameterizedQuery` pair of `generic_query_builder.rs`:
`qb.placeholder()` hands out `DbType::placeholder` strings for an
incrementing counter starting at 1.  Each facade operation is modelled up
to the SQL text and the ordered bind list it submits; the database
round-trip, where a claim depends on it, is an explicit oracle argument. -/

/-- `u32` subtraction with wrap-around (release-mode semantics of
`page - 1` in `RepositoryTrait::paginate`; a debug build would panic on
underflow).  Arguments are `u32` values, i.e. below `2^32`. -/
def u32Sub (a b : Nat) : Nat := (a + 2 ^ 32 - b) % 2 ^ 32

/-- `u32` multiplication with wrap-around. -/
def u32Mul (a b : Nat) : Nat := a * b % 2 ^ 32

/-- `RepositoryTrait::paginate` offset computation
(`repository_trait.rs`, line 144): `let offset = (page - 1) * page_size;`
on `u32`, with no clamping of `page = 0`. -/
def facadePaginateOffset (page pageSize : Nat) : Nat :=
  u32Mul (u32Sub page 1) pageSize

/-- The SQL text issued by `RepositoryTrait::paginate`
(`repository_trait.rs`, lines 143–157). -/
def facadePaginateSql (ent : Entry) (page pageSize : Nat) : String :=
  "SELECT " ++ ent.columnsToString ++ " FROM " ++ ent.tableName ++
    " ORDER BY id ASC LIMIT " ++ toString pageSize ++
    " OFFSET " ++ toString (facadePaginateOffset page pageSize)

/-- SQL and bind list built by `RepositoryTrait::find_by_column`
(`repository_trait.rs`, lines 70–89): the caller-supplied column is
formatted into the SQL text with no validation. -/
def findByColumnQuery (ent : Entry) (db : DbType) (column : String)
    (v : Val) : String × List Val :=
  ("SELECT " ++ ent.columnsToString ++ " FROM " ++ ent.tableName ++
     " WHERE " ++ column ++ " = " ++ db.placeholder 1, [v])

/-- SQL and bind list built by `RepositoryTrait::find_by_columns`
(`repository_trait.rs`, lines 92–120): empty input degrades to `find_all`,
an arity mismatch is an `InternalServer` error, and otherwise each
caller-supplied column is formatted into the SQL text with no
validation. -/
def findByColumnsQuery (ent : Entry) (db : DbType) (columns : List String)
    (vals : List Val) : Except ApiError (String × List Val) :=
  if columns.isEmpty ∨ vals.isEmpty then
    .ok ("SELECT " ++ String.intercalate ", " ent.columns ++ " FROM " ++
          ent.tableName, [])
  else if columns.length ≠ vals.length then
    .error (.internalServer "Columns and values length mismatch")
  else
    let conds := columns.enum.map
      (fun p => p.2 ++ " = " ++ db.placeholder (p.1 + 1))
    .ok ("SELECT " ++ ent.columnsToString ++ " FROM " ++ ent.tableName ++
          " WHERE " ++ String.intercalate " AND " conds, vals)

/-- `RepositoryTrait::update_partial` (`repository_trait.rs`,
lines 261–289), modelled up to the SQL text and ordered bind list it
submits: empty or length-mismatched input is a `BadRequest`; otherwise the
SET list assigns exactly the supplied columns (placeholders `1..n`), the
`WHERE id` placeholder is `n+1`, and the binds are the supplied values
followed by the id.  The caller-supplied columns are formatted into the SQL
with no validation. -/
def updatePartialFn (ent : Entry) (db : DbType) (idVal : Val)
    (columns : List String) (values : List Val) :
    Except ApiError (String × List Val) :=
  if columns.isEmpty ∨ values.isEmpty ∨ columns.length ≠ values.length then
    .error (.badRequest "Empty columns or values")
  else
    let assignments := columns.enum.map
      (fun p => p.2 ++ " = " ++ db.placeholder (p.1 + 1))
    .ok ("UPDATE " ++ ent.tableName ++ " SET " ++
          String.intercalate ", " assignments ++
          " WHERE id = " ++ db.placeholder (columns.length + 1) ++
          " RETURNING " ++ ent.columnsToString,
        values ++ [idVal])

/-- SQL and bind list built by `RepositoryTrait::delete`
(`repository_trait.rs`, lines 292–306). -/
def deleteQuery (ent : Entry) (db : DbType) (idVal : Val) :
    String × List Val :=
  ("DELETE FROM " ++ ent.tableName ++ " WHERE id = " ++ db.placeholder 1,
   [idVal])

/-- The result of `RepositoryTrait::delete` as a function of the driver
outcome of `execute` (already converted to `ApiError` at the executor
boundary): any successful execution — regardless of the number of affected
rows — yields `Ok(true)`. -/
def deleteResult (execOutcome : Except ApiError Nat) : Except ApiError Bool :=
  match execOutcome with
  | .error e => .error e
  | .ok _ => .ok true

/-- `RepositoryTrait::delete_many` (`repository_trait.rs`, lines 309–335)
with the driver as an oracle; the second component logs every SQL statement
submitted together with its binds.  An empty id list returns `Ok(0)`
without submitting anything. -/
def deleteMany (ent : Entry) (db : DbType)
    (exec : String → List Val → Except ApiError Nat) (ids : List Val) :
    Except ApiError Nat × List (String × List Val) :=
  if ids.isEmpty then (.ok 0, [])
  else
    let phs := ids.enum.map (fun p => db.placeholder (p.1 + 1))
    let sql := "DELETE FROM " ++ ent.tableName ++ " WHERE id IN (" ++
      String.intercalate ", " phs ++ ")"
    match exec sql ids with
    | .ok n => (.ok n, [(sql, ids)])
    | .error e => (.error e, [(sql, ids)])

/-- `RepositoryTrait::find_by_values` (`repository_trait.rs`,
lines 451–469) with the driver as an oracle (rows of an abstract type);
the second component logs every SQL statement submitted.  An empty value
list returns `Ok(vec![])` without submitting anything; otherwise the query
goes through `where_in` and `QueryBuilderUtil::fetch_all`, whose driver
errors map to `ApiError::Database`. -/
def findByValues {α : Type} (ent : Entry) (db : DbType)
    (fetch : String → List Val → Except DbErr (List α))
    (column : String) (vals : List Val) :
    Except ApiError (List α) × List (String × List Val) :=
  if vals.isEmpty then (.ok [], [])
  else
    match (QueryBuilderUtil.new ent).whereIn column vals with
    | .error e => (.error e, [])
    | .ok b =>
      let q := b.buildSelectQuery db
      match fetch q.sql q.binds with
      | .ok rows => (.ok rows, [(q.sql, q.binds)])
      | .error e => (.error (.database e), [(q.sql, q.binds)])

/-- The builder state assembled by `RepositoryTrait::exists`
(`repository_trait.rs`, lines 338–350): `where_eq("id", id)` followed by
`limit(1)`. -/
def existsBuilder (ent : Entry) (idVal : Val) :
    Except ApiError QueryBuilderUtil :=
  ((QueryBuilderUtil.new ent).whereEq "id" idVal).map
    (fun b => b.setLimit 1)

/-- `RepositoryTrait::exists` with the driver's `COUNT(*)` answer as an
oracle: builds the count query from `existsBuilder` and returns
`count > 0`; driver errors map to `ApiError::Database`
(`QueryBuilderUtil::count`, lines 717–721). -/
def existsFn (ent : Entry) (db : DbType)
    (count : String → List Val → Except DbErr Int) (idVal : Val) :
    Except ApiError Bool :=
  match existsBuilder ent idVal with
  | .error e => .error e
  | .ok b =>
    let q := b.countQuery db
    match count q.sql q.binds with
    | .ok n => .ok (decide (n > 0))
    | .error e => .error (.database e)

/-! ## `ParameterizedQuery` (parameterizedQuery.rs) -/

/-- A query as submitted to the driver: SQL text plus the parameters
attached to it. -/
structure IssuedQuery where
  sql : String
  params : List Val
deriving DecidableEq, Repr

/-- `ParameterizedQuery`: keeps the SQL text and the accumulated
`sqlx::query(sql)` with its bound parameters (`self.query`). -/
structure ParameterizedQuery where
  sql : String
  queryBinds : List Val
deriving DecidableEq, Repr

/-- `ParameterizedQuery::new`: `query: sqlx::query(sql)` starts with no
bound parameters. -/
def ParameterizedQuery.new (sql : String) : ParameterizedQuery :=
  { sql := sql, queryBinds := [] }

/-- `ParameterizedQuery::bind`: appends one value to the accumulated
query's parameters. -/
def ParameterizedQuery.bind (q : ParameterizedQuery) (v : Val) :
    ParameterizedQuery :=
  { q with queryBinds := q.queryBinds ++ [v] }

/-- Bind a whole list of values left to right. -/
def ParameterizedQuery.bindAll (q : ParameterizedQuery) (vs : List Val) :
    ParameterizedQuery :=
  vs.foldl ParameterizedQuery.bind q

/-- The query submitted by `ParameterizedQuery::execute`: the accumulated
`self.query`, i.e. the SQL with every bound parameter. -/
def ParameterizedQuery.executeIssued (q : ParameterizedQuery) : IssuedQuery :=
  ⟨q.sql, q.queryBinds⟩

/-- The query submitted by `ParameterizedQuery::fetch_all`
(`parameterizedQuery.rs`, lines 39–47): `sqlx::query_as::<_, T>(self.sql)`
— a fresh query rebuilt from the SQL text alone, carrying none of the
accumulated parameters. -/
def ParameterizedQuery.fetchAllIssued (q : ParameterizedQuery) : IssuedQuery :=
  ⟨q.sql, []⟩

/-- The query submitted by `ParameterizedQuery::fetch_one`
(lines 50–58): likewise rebuilt from `self.sql` alone. -/
def ParameterizedQuery.fetchOneIssued (q : ParameterizedQuery) : IssuedQuery :=
  ⟨q.sql, []⟩

/-- The query submitted by `ParameterizedQuery::fetch_optional`
(lines 61–69): likewise rebuilt from `self.sql` alone. -/
def ParameterizedQuery.fetchOptionalIssued (q : ParameterizedQuery) :
    IssuedQuery :=
  ⟨q.sql, []⟩

/-! ## `execute_transaction` (repository_utils.rs, lines 55–84) -/

/-- Observable transaction events, in order of occurrence. -/
inductive TxEvent where
  | txBegin | invokeWork | txCommit | txRollback
deriving DecidableEq, Repr

/-- `execute_transaction`: begins a transaction, invokes the unit of work
once, commits on `Ok` (propagating a commit failure), and on `Err` rolls
back with `let _ = tx.rollback().await;` — the rollback outcome is
discarded — then returns the original error.  The outcomes of the
begin/commit steps arrive already converted to `ApiError`
(`map_err(ApiError::from)` at each call site); the unit of work is a plain
outcome value and the returned event list records each step taken, so
"invoked exactly once" is the count of `invokeWork` events. -/
def executeTransaction {R : Type} (beginOutcome : Except ApiError Unit)
    (work : Except ApiError R) (commitOutcome : Except ApiError Unit)
    (rollbackOutcome : Except ApiError Unit) :
    Except ApiError R × List TxEvent :=
  match beginOutcome with
  | .error e => (.error e, [.txBegin])
  | .ok _ =>
    match work with
    | .ok res =>
      match commitOutcome with
      | .ok _ => (.ok res, [.txBegin, .invokeWork, .txCommit])
      | .error e => (.error e, [.txBegin, .invokeWork, .txCommit])
    | .error e =>
      let _discarded := rollbackOutcome
      (.error e, [.txBegin, .invokeWork, .txRollback])

/-! ## Concrete entities and builder pipelines used by the claims -/

/-- A three-column entity used for the placeholder-ordering scenario. -/
def entABC : Entry :=
  { tableName := "t", columns := ["a", "b", "c"],
    insertableColumns := ["a", "b", "c"] }

/-- The condition sequence
`where_eq("a",1).where_in("b",[2,3]).where_between("c",4,5)`. -/
def c2Builder : Except ApiError QueryBuilderUtil := do
  let b ← (QueryBuilderUtil.new entABC).whereEq "a" (.int 1)
  let b ← b.whereIn "b" [.int 2, .int 3]
  b.whereBetween "c" (.int 4) (.int 5)

/-- The WHERE-clause rendering of `c2Builder` in a given dialect, starting
from an empty render state. -/
def c2Render (db : DbType) : Except ApiError RenderSt :=
  c2Builder.map (fun b => buildWhereConditions b.whereClauses (RenderSt.new db ""))

/-- A four-column entity used for the grouping scenarios. -/
def entPosts : Entry :=
  { tableName := "posts",
    columns := ["status", "author_id", "archived", "priority"],
    insertableColumns := ["status", "author_id", "archived", "priority"] }

/-- The grouping scenario of the spec:
`where_group_or(g => g.where_eq("status","draft").and().where_eq("author_id",7))`
followed by the sibling `where_eq("archived", false)`. -/
def c6Builder : Except ApiError QueryBuilderUtil := do
  let b ← (QueryBuilderUtil.new entPosts).whereGroupOr (fun g => do
    let g ← g.whereEq "status" (.str "draft")
    let g := g.andOp
    g.whereEq "author_id" (.int 7))
  b.whereEq "archived" (.bool false)

/-- The grouping example from the doc comment of
`QueryBuilderUtil::where_group_and` (`query_builder.rs`, lines 260–262):
`where_group_and(|group| group.where_eq("status", "active").or().where_eq("priority", "high"))`,
documented to render `WHERE (status = 'active' OR priority = 'high') AND ...`. -/
def c6DocExample : Except ApiError QueryBuilderUtil :=
  (QueryBuilderUtil.new entPosts).whereGroupAnd (fun g => do
    let g ← g.whereEq "status" (.str "active")
    let g := g.orOp
    g.whereEq "priority" (.str "high"))

/-- Project a builder to the SQL text and bind list of its rendered
SELECT query in a given dialect. -/
def selectSqlAndBinds (db : DbType) (b : QueryBuilderUtil) :
    String × List Val :=
  ((b.buildSelectQuery db).sql, (b.buildSelectQuery db).binds)

/-! ## Helper lemmas -/

/-- `bindAll` leaves the SQL text untouched. -/
theorem ParameterizedQuery.bindAll_sql (q : ParameterizedQuery)
    (vs : List Val) : (q.bindAll vs).sql = q.sql := by
  induction vs generalizing q with
  | nil => rfl
  | cons v vs ih => simpa [ParameterizedQuery.bindAll] using ih (q.bind v)

/-- `bindAll` appends the values to the accumulated parameters. -/
theorem ParameterizedQuery.bindAll_queryBinds (q : ParameterizedQuery)
    (vs : List Val) : (q.bindAll vs).queryBinds = q.queryBinds ++ vs := by
  induction vs generalizing q with
  | nil => simp [ParameterizedQuery.bindAll]
  | cons v vs ih =>
    have h := ih (q.bind v)
    simp [ParameterizedQuery.bindAll, ParameterizedQuery.bind] at h ⊢
    simp [h]

/-! ## Claim theorems -/

/-- **C2** (confirmed): for the condition sequence
`[where_eq(a,1), where_in(b,[2,3]), where_between(c,4,5)]` the rendered
WHERE clause allocates exactly five placeholders — one for the equality,
one per `IN` element (parenthesized), exactly two for `BETWEEN` joined by
`AND` — and binds the values `[1,2,3,4,5]` left to right, in both the
positional `$n` dialect and the `?` dialect; an `IS NULL` condition
allocates no placeholder. -/
theorem c2_placeholder_ordering :
    c2Render .postgres =
      .ok { sql := "a = $1 AND b IN ($2, $3) AND c BETWEEN $4 AND $5"
            binds := [.int 1, .int 2, .int 3, .int 4, .int 5]
            paramCount := 5, dbType := .postgres } ∧
    c2Render .mysql =
      .ok { sql := "a = ? AND b IN (?, ?) AND c BETWEEN ? AND ?"
            binds := [.int 1, .int 2, .int 3, .int 4, .int 5]
            paramCount := 5, dbType := .mysql } ∧
    buildWhereConditions [(.condition ⟨"a", .isNull, none, none⟩, none)]
        (RenderSt.new .postgres "") =
      { sql := "a IS NULL", binds := [], paramCount := 0,
        dbType := .postgres } := by
  have h : c2Builder = .ok
      { ent := entABC
        whereClauses :=
          [(.condition ⟨"a", .equal, some (.int 1), none⟩, none),
           (.condition ⟨"b", .inList, none, some [.int 2, .int 3]⟩, none),
           (.condition ⟨"c", .between, none, some [.int 4, .int 5]⟩, none)]
        orderBy := [], joins := [], limit := none, offset := none
        groupBy := [], having := [], distinct := false, selectColumns := none
        updateData := [], insertData := [] } := rfl
  refine ⟨?_, ?_, ?_⟩ <;>
    (simp only [c2Render, h, Except.map, buildWhereConditions,
      buildWhereClauses]; rfl)

/-- **C4** (code bug): `RepositoryTrait::delete` issues
`DELETE FROM users WHERE id = $1` but returns `Ok(true)` for every
successful execution, regardless of the number of affected rows — in
particular `Ok(true)` when no row matched (`rows_affected = 0`), where the
claim and the method's own doc comment ("Returns true if a record was
deleted") require `false`. -/
theorem c4_delete_ignores_rows_affected :
    (deleteQuery userEntry .postgres (.str "7f9")).1 =
      "DELETE FROM users WHERE id = $1" ∧
    deleteResult (.ok 0) = .ok true ∧
    deleteResult (.ok 1) = .ok true ∧
    (∀ n : Nat, deleteResult (.ok n) = .ok true) := by
  refine ⟨rfl, rfl, rfl, fun n => rfl⟩

/-- **C5** (code bug): the facade offset is `(page-1) * page_size` on `u32`
with no clamping, so `paginate(1,10)` yields offset 0 and `paginate(3,10)`
yields offset 20, but `paginate(0,10)` wraps to offset 4294967286 (a debug
build panics) instead of behaving like `paginate(1,10)`; only
`QueryBuilderUtil::paginate` clamps via `saturating_sub`. -/
theorem c5_facade_paginate_does_not_clamp :
    facadePaginateOffset 1 10 = 0 ∧
    facadePaginateOffset 3 10 = 20 ∧
    facadePaginateOffset 0 10 = 4294967286 ∧
    ((QueryBuilderUtil.new userEntry).paginate 0 10).offset = some 0 ∧
    ((QueryBuilderUtil.new userEntry).paginate 1 10).offset = some 0 ∧
    facadePaginateSql userEntry 0 10 ≠ facadePaginateSql userEntry 1 10 := by
  refine ⟨by decide, by decide, by decide, rfl, rfl, by decide⟩

/-- **C6** (code bug): the spec's grouping example
`where_group_or(g => g.where_eq("status","draft").and().where_eq("author_id",7))`
with sibling `where_eq("archived", false)` does render as the claimed
`WHERE (status = $1 AND author_id = $2) AND archived = $3`, and
`and()`/`or()` are no-ops on an empty group — but the renderer reads the
connective stored on clause `i` when joining clause `i-1` to clause `i`,
while `and()`/`or()` store it on clause `i-1`: the `or()` example from the
source's own doc comment renders with `AND`, contradicting the documented
`WHERE (status = 'active' OR priority = 'high')`. -/
theorem c6_group_connective_off_by_one :
    c6Builder.map (selectSqlAndBinds .postgres) =
      .ok ("SELECT status, author_id, archived, priority FROM posts WHERE (status = $1 AND author_id = $2) AND archived = $3",
           [.str "draft", .int 7, .bool false]) ∧
    c6DocExample.map (selectSqlAndBinds .postgres) =
      .ok ("SELECT status, author_id, archived, priority FROM posts WHERE (status = $1 AND priority = $2)",
           [.str "active", .str "high"]) ∧
    (GroupBuilder.new entPosts).andOp.clauses = [] ∧
    (GroupBuilder.new entPosts).orOp.clauses = [] := by
  have h1 : c6Builder = .ok
      { ent := entPosts
        whereClauses :=
          [(.group [(.condition ⟨"status", .equal, some (.str "draft"), none⟩, some .and),
                    (.condition ⟨"author_id", .equal, some (.int 7), none⟩, none)] .or, none),
           (.condition ⟨"archived", .equal, some (.bool false), none⟩, none)]
        orderBy := [], joins := [], limit := none, offset := none
        groupBy := [], having := [], distinct := false, selectColumns := none
        updateData := [], insertData := [] } := rfl
  have h2 : c6DocExample = .ok
      { ent := entPosts
        whereClauses :=
          [(.group [(.condition ⟨"status", .equal, some (.str "active"), none⟩, some .or),
                    (.condition ⟨"priority", .equal, some (.str "high"), none⟩, none)] .and, none)]
        orderBy := [], joins := [], limit := none, offset := none
        groupBy := [], having := [], distinct := false, selectColumns := none
        updateData := [], insertData := [] } := rfl
  refine ⟨?_, ?_, rfl, rfl⟩ <;>
    (first
      | (simp only [h1, Except.map, selectSqlAndBinds,
          QueryBuilderUtil.buildSelectQuery, buildWhereConditions,
          buildWhereClauses]; rfl)
      | (simp only [h2, Except.map, selectSqlAndBinds,
          QueryBuilderUtil.buildSelectQuery, buildWhereConditions,
          buildWhereClauses]; rfl))

/-- **C9** (confirmed): `delete_many` with an empty id list returns `Ok(0)`
and `find_by_values` with an empty value list returns `Ok([])`, and in both
cases the log of submitted SQL statements is empty, for every driver
oracle. -/
theorem c9_empty_input_short_circuits {α : Type}
    (exec : String → List Val → Except ApiError Nat)
    (fetch : String → List Val → Except DbErr (List α))
    (ent : Entry) (db : DbType) (col : String) :
    deleteMany ent db exec [] = (.ok 0, []) ∧
    findByValues ent db fetch col [] = (.ok [], []) := by
  constructor <;> simp [deleteMany, findByValues]

/-- **C10** (confirmed): the typed reads `fetch_all`/`fetch_one`/
`fetch_optional` of `ParameterizedQuery` rebuild their query from the SQL
text alone, so two runs differing only in the values passed to `bind`
submit identical queries (and any driver therefore returns identical
results); only `execute` submits the accumulated bindings. -/
theorem c10_typed_reads_ignore_bound_values (sql : String)
    (bs1 bs2 : List Val) :
    ((ParameterizedQuery.new sql).bindAll bs1).fetchAllIssued =
      ((ParameterizedQuery.new sql).bindAll bs2).fetchAllIssued ∧
    ((ParameterizedQuery.new sql).bindAll bs1).fetchOneIssued =
      ((ParameterizedQuery.new sql).bindAll bs2).fetchOneIssued ∧
    ((ParameterizedQuery.new sql).bindAll bs1).fetchOptionalIssued =
      ((ParameterizedQuery.new sql).bindAll bs2).fetchOptionalIssued ∧
    ((ParameterizedQuery.new sql).bindAll bs1).fetchAllIssued =
      ⟨sql, []⟩ ∧
    (∀ (β : Type) (driver : IssuedQuery → β),
      driver ((ParameterizedQuery.new sql).bindAll bs1).fetchAllIssued =
        driver ((ParameterizedQuery.new sql).bindAll bs2).fetchAllIssued) ∧
    ((ParameterizedQuery.new sql).bindAll bs1).executeIssued =
      ⟨sql, bs1⟩ := by
  have hs1 := ParameterizedQuery.bindAll_sql (ParameterizedQuery.new sql) bs1
  have hs2 := ParameterizedQuery.bindAll_sql (ParameterizedQuery.new sql) bs2
  have hb1 := ParameterizedQuery.bindAll_queryBinds (ParameterizedQuery.new sql) bs1
  refine ⟨?_, ?_, ?_, ?_, ?_, ?_⟩
  · simp only [ParameterizedQuery.fetchAllIssued]; rw [hs1, hs2]
  · simp only [ParameterizedQuery.fetchOneIssued]; rw [hs1, hs2]
  · simp only [ParameterizedQuery.fetchOptionalIssued]; rw [hs1, hs2]
  · simp only [ParameterizedQuery.fetchAllIssued]; rw [hs1]; rfl
  · intro β driver
    congr 1
    simp only [ParameterizedQuery.fetchAllIssued]; rw [hs1, hs2]
  · simp only [ParameterizedQuery.executeIssued]; rw [hs1, hb1]; rfl

/-- A failed column validation on `QueryBuilderUtil`. -/
theorem qbValidateColumn_fail {b : QueryBuilderUtil}
    {col : String} (h : b.ent.columns.contains col = false) :
    b.validateColumn col = .error (.invalidColumn col) := by
  simp only [QueryBuilderUtil.validateColumn, h]
  rfl

/-- A failed column validation on `GroupBuilder`. -/
theorem gbValidateColumn_fail {g : GroupBuilder}
    {col : String} (h : g.ent.columns.contains col = false) :
    g.validateColumn col = .error (.invalidColumn col) := by
  simp only [GroupBuilder.validateColumn, h]
  rfl

/-- **C1** (corrected): every `QueryBuilderUtil`/`GroupBuilder` method that
receives a column name — the `where_*` family, `order_by`, `group_by`,
`select`, `set`, `value` — checks it against the entity's `columns()` and
fails with `InvalidColumn` before any SQL is produced; the facade methods
`update_partial` and `find_by_columns`, however, never produce an
`InvalidColumn` error, and `find_by_column` formats the caller-supplied
column directly into the SQL text. -/
theorem c1_builder_validates_facade_does_not
    (b : QueryBuilderUtil) (g : GroupBuilder) (col : String)
    (v lo hi : Val) (vs : List Val) (dir : OrderDirection)
    (hb : b.ent.columns.contains col = false)
    (hg : g.ent.columns.contains col = false) :
    (b.whereEq col v = .error (.invalidColumn col) ∧
     b.whereNe col v = .error (.invalidColumn col) ∧
     b.whereGt col v = .error (.invalidColumn col) ∧
     b.whereGte col v = .error (.invalidColumn col) ∧
     b.whereLt col v = .error (.invalidColumn col) ∧
     b.whereLte col v = .error (.invalidColumn col) ∧
     b.whereLike col v = .error (.invalidColumn col) ∧
     b.whereIlike col v = .error (.invalidColumn col) ∧
     b.whereIn col vs = .error (.invalidColumn col) ∧
     b.whereNotIn col vs = .error (.invalidColumn col) ∧
     b.whereNull col = .error (.invalidColumn col) ∧
     b.whereNotNull col = .error (.invalidColumn col) ∧
     b.whereBetween col lo hi = .error (.invalidColumn col) ∧
     b.orderByCol col dir = .error (.invalidColumn col) ∧
     b.groupByCol col = .error (.invalidColumn col) ∧
     b.select [col] = .error (.invalidColumn col) ∧
     b.set col v = .error (.invalidColumn col) ∧
     b.value col v = .error (.invalidColumn col) ∧
     g.whereEq col v = .error (.invalidColumn col)) ∧
    ((∀ ent db idVal cols vals c,
        updatePartialFn ent db idVal cols vals ≠ .error (.invalidColumn c)) ∧
     (∀ ent db cols vals c,
        findByColumnsQuery ent db cols vals ≠ .error (.invalidColumn c)) ∧
     (∀ ent db c w, (findByColumnQuery ent db c w).1 =
        "SELECT " ++ ent.columnsToString ++ " FROM " ++ ent.tableName ++
          " WHERE " ++ c ++ " = " ++ db.placeholder 1)) := by
  constructor
  · refine ⟨?_, ?_, ?_, ?_, ?_, ?_, ?_, ?_, ?_, ?_, ?_, ?_, ?_, ?_, ?_,
      ?_, ?_, ?_, ?_⟩ <;>
    simp [QueryBuilderUtil.whereEq, QueryBuilderUtil.whereNe,
      QueryBuilderUtil.whereGt, QueryBuilderUtil.whereGte,
      QueryBuilderUtil.whereLt, QueryBuilderUtil.whereLte,
      QueryBuilderUtil.whereLike, QueryBuilderUtil.whereIlike,
      QueryBuilderUtil.whereIn, QueryBuilderUtil.whereNotIn,
      QueryBuilderUtil.whereNull, QueryBuilderUtil.whereNotNull,
      QueryBuilderUtil.whereBetween, QueryBuilderUtil.orderByCol,
      QueryBuilderUtil.groupByCol, QueryBuilderUtil.select,
      QueryBuilderUtil.set, QueryBuilderUtil.value, GroupBuilder.whereEq,
      qbValidateColumn_fail hb,
      gbValidateColumn_fail hg, Bind.bind, Except.bind]
  · refine ⟨?_, ?_, fun ent db c w => rfl⟩
    · intro ent db idVal cols vals c
      simp only [updatePartialFn]
      split <;> simp
    · intro ent db cols vals c
      simp only [findByColumnsQuery]
      split
      · simp
      · split <;> simp

/-- Witness for C1: the builder rejects the unknown column `bogus` on the
`users` entity. -/
theorem c1_builder_validates_facade_does_not_witness :
    userEntry.columns.contains "bogus" = false ∧
    (QueryBuilderUtil.new userEntry).whereEq "bogus" (.str "x") =
      .error (.invalidColumn "bogus") :=
  ⟨by decide,
   (c1_builder_validates_facade_does_not (QueryBuilderUtil.new userEntry)
     (GroupBuilder.new userEntry) "bogus" (.str "x") (.int 0) (.int 1) []
     .asc (by decide) (by decide)).1.1⟩

/-- Counterexample to C1 as stated: `bogus` is not one of the `users`
columns, yet the facade's `update_partial` succeeds and embeds `bogus` in
its SQL instead of failing with `InvalidColumn`, and `find_by_column`
likewise formats it straight into the query text. -/
theorem c1_counterexample :
    userEntry.columns.contains "bogus" = false ∧
    updatePartialFn userEntry .postgres (.str "7f9") ["bogus"] [.str "x"] =
      .ok ("UPDATE users SET bogus = $1 WHERE id = $2 RETURNING id, username, email, password_hash, created_at, updated_at",
           [.str "x", .str "7f9"]) ∧
    findByColumnQuery userEntry .postgres "bogus" (.str "x") =
      ("SELECT id, username, email, password_hash, created_at, updated_at FROM users WHERE bogus = $1",
       [.str "x"]) := by
  refine ⟨by decide, rfl, rfl⟩

/-- **C3** (confirmed): with a successfully begun transaction,
`execute_transaction` invokes the unit of work exactly once; on success it
commits and returns the work's result; on failure it rolls back and
propagates the original error unchanged, and the outcome is identical for
any rollback outcome — a rollback failure is swallowed. -/
theorem c3_transaction_contract {R : Type} (work : Except ApiError R)
    (commit rollback rollback2 : Except ApiError Unit) :
    ((executeTransaction (.ok ()) work commit rollback).2.count
        .invokeWork = 1) ∧
    (∀ r, work = .ok r → commit = .ok () →
      executeTransaction (.ok ()) work commit rollback =
        (.ok r, [.txBegin, .invokeWork, .txCommit])) ∧
    (∀ e, work = .error e →
      executeTransaction (.ok ()) work commit rollback =
        (.error e, [.txBegin, .invokeWork, .txRollback]) ∧
      executeTransaction (.ok ()) work commit rollback =
        executeTransaction (.ok ()) work commit rollback2) := by
  refine ⟨?_, ?_, ?_⟩
  · cases work with
    | ok r => cases commit with
      | ok u => rfl
      | error e => rfl
    | error e => rfl
  · intro r hr hc
    subst hr
    subst hc
    rfl
  · intro e he
    subst he
    exact ⟨rfl, rfl⟩

/-- Witness for C3: a committed unit of work returns its value, and a
failed one returns its own error even when the rollback itself fails. -/
theorem c3_transaction_contract_witness :
    executeTransaction (.ok ()) (.ok (42 : Nat)) (.ok ())
        (.error (.internalServer "rollback failed")) =
      (.ok 42, [.txBegin, .invokeWork, .txCommit]) ∧
    executeTransaction (.ok ())
        ((.error (.notFound "gone")) : Except ApiError Nat) (.ok ())
        (.error (.internalServer "rollback failed")) =
      (.error (.notFound "gone"), [.txBegin, .invokeWork, .txRollback]) :=
  ⟨(c3_transaction_contract (.ok 42) (.ok ())
      (.error (.internalServer "rollback failed")) (.ok ())).2.1 42 rfl rfl,
   ((c3_transaction_contract ((.error (.notFound "gone")) : Except ApiError Nat)
      (.ok ()) (.error (.internalServer "rollback failed")) (.ok ())).2.2
      (.notFound "gone") rfl).1⟩

set_option maxRecDepth 8192 in
/-- Counterexample to C7 as stated: a non-empty `update_partial` writes
only the supplied column — its SET list is `username = $1` and the SQL
contains no `updated_at =` assignment anywhere, so no forced `updated_at`
bump happens. -/
theorem c7_counterexample :
    updatePartialFn userEntry .postgres (.str "7f9") ["username"]
        [.str "alice"] =
      .ok ("UPDATE users SET username = $1 WHERE id = $2 RETURNING id, username, email, password_hash, created_at, updated_at",
           [.str "alice", .str "7f9"]) ∧
    ¬ ("updated_at =".toList <:+:
        "UPDATE users SET username = $1 WHERE id = $2 RETURNING id, username, email, password_hash, created_at, updated_at".toList) := by
  exact ⟨rfl, by decide⟩

set_option maxRecDepth 8192 in
/-- **C7** (corrected): `update_partial` with an empty column list fails
with `BadRequest` (never a silent no-op); with a non-empty list it writes
exactly the supplied column/value pairs — and nothing else: there is no
forced `updated_at` assignment. -/
theorem c7_empty_is_bad_request_and_no_forced_bump (idVal : Val)
    (vals : List Val) :
    updatePartialFn userEntry .postgres idVal [] vals =
      .error (.badRequest "Empty columns or values") ∧
    updatePartialFn userEntry .postgres (.str "7f9") ["username"]
        [.str "alice"] =
      .ok ("UPDATE users SET username = $1 WHERE id = $2 RETURNING id, username, email, password_hash, created_at, updated_at",
           [.str "alice", .str "7f9"]) ∧
    ¬ ("updated_at =".toList <:+:
        "UPDATE users SET username = $1 WHERE id = $2 RETURNING id, username, email, password_hash, created_at, updated_at".toList) := by
  refine ⟨rfl, rfl, by decide⟩

/-- Counterexample to C8 as stated: the count query issued by `exists` is
`SELECT COUNT(*) FROM users WHERE id = $1` — it carries no `LIMIT` clause
at all, because `QueryBuilderUtil::count` ignores the builder's `limit`. -/
theorem c8_counterexample :
    (existsBuilder userEntry (.str "7f9")).map
        (fun b => (b.countQuery .postgres).sql) =
      .ok "SELECT COUNT(*) FROM users WHERE id = $1" ∧
    ¬ ("LIMIT".toList <:+:
        "SELECT COUNT(*) FROM users WHERE id = $1".toList) := by
  constructor
  · have h : existsBuilder userEntry (.str "7f9") = .ok
        { ent := userEntry
          whereClauses :=
            [(.condition ⟨"id", .equal, some (.str "7f9"), none⟩, none)]
          orderBy := [], joins := [], limit := some 1, offset := none
          groupBy := [], having := [], distinct := false
          selectColumns := none, updateData := [], insertData := [] } := rfl
    simp only [h, Except.map, QueryBuilderUtil.countQuery,
      buildWhereConditions, buildWhereClauses]
    rfl
  · decide

/-- **C8** (corrected): `exists` performs an equality-on-id `COUNT(*)`
check and sets `limit(1)` on its builder, but `QueryBuilderUtil::count`
ignores the limit, so the issued query carries no `LIMIT` clause; the
result is the boolean `count > 0` derived from the driver's count alone
(no row is materialized), with driver errors surfacing as
`ApiError::Database`. -/
theorem c8_exists_count_without_limit (idVal : Val) (n : Int) (e : DbErr) :
    (existsBuilder userEntry idVal).map (fun b => b.limit) = .ok (some 1) ∧
    existsFn userEntry .postgres (fun _ _ => .ok n) idVal =
      .ok (decide (n > 0)) ∧
    existsFn userEntry .postgres (fun _ _ => .error e) idVal =
      .error (.database e) ∧
    (existsBuilder userEntry (.str "7f9")).map
        (fun b => (b.countQuery .postgres).sql) =
      .ok "SELECT COUNT(*) FROM users WHERE id = $1" ∧
    ¬ ("LIMIT".toList <:+:
        "SELECT COUNT(*) FROM users WHERE id = $1".toList) := by
  refine ⟨rfl, rfl, rfl, ?_, by decide⟩
  have h : existsBuilder userEntry (.str "7f9") = .ok
      { ent := userEntry
        whereClauses :=
          [(.condition ⟨"id", .equal, some (.str "7f9"), none⟩, none)]
        orderBy := [], joins := [], limit := some 1, offset := none
        groupBy := [], having := [], distinct := false
        selectColumns := none, updateData := [], insertData := [] } := rfl
  simp only [h, Except.map, QueryBuilderUtil.countQuery,
    buildWhereConditions, buildWhereClauses]
  rfl
